import Mathlib

/-!
Verification development for the tatva data-access layer.

We shallowly embed the interceptor pipeline (`src/frontend/Api.js`), the
auth flow (`src/frontend/ApiService.js`, `authService.login`) and the two
resource state machines (`useApi` and `usePaginatedApi` in the unnamed
hooks/utility module) as pure Lean functions over explicit state.

JavaScript conventions modelled explicitly:
  * `localStorage` is a record with the two keys the code uses
    (`token`, `user`), each `Option String` (`getItem` returns null when
    absent).
  * String truthiness: `null`/`undefined` and `""` are falsy, so
    `a || b` on strings skips absent *and* empty values.
  * Number truthiness: `0` is falsy, so `x || 0` maps an absent field and
    a present `0` both to `0`.
  * A property access `v.message` faults (TypeError) when `v` is null;
    the optional-chained `v?.message` instead yields `undefined`.
-/

namespace Tatva

/-- The persisted session store: the two `localStorage` keys the code
reads and writes.  `none` models an absent key (`getItem` → null). -/
structure Storage where
  token : Option String
  user : Option String
  deriving DecidableEq, Repr

/-- A JSON response body as the interceptor sees it: `null`, a plain
string (axios leaves an empty / non-JSON body as a string), or an object
with an optional `message` field (the only field the code reads). -/
inductive BodyVal where
  | nullv : BodyVal
  | strv (s : String) : BodyVal
  | objv (message : Option String) : BodyVal
  deriving DecidableEq, Repr

/-- Optional-chained `data?.message`: null-safe, absent on non-objects. -/
def BodyVal.optMessage : BodyVal → Option String
  | .nullv => none
  | .strv _ => none
  | .objv m => m

/-- Unguarded `data.message`: faults (TypeError) when `data` is null;
on a string it is merely `undefined`. -/
def BodyVal.getMessage : BodyVal → Except Unit (Option String)
  | .nullv => .error ()
  | .strv _ => .ok none
  | .objv m => .ok m

/-- The `error.response` object of an axios failure: HTTP status and body. -/
structure ErrResponse where
  status : Int
  data : BodyVal
  deriving DecidableEq, Repr

/-- An axios error: an optional server response, whether a request was
dispatched (`error.request`), and the transport `error.message`. -/
structure AxiosError where
  response : Option ErrResponse
  hasRequest : Bool
  message : String
  deriving DecidableEq, Repr

/-- An outgoing request descriptor: the fields the request interceptor
can observe or write (`url` stands for all fields it never touches). -/
structure ReqConfig where
  url : String
  authorization : Option String
  deriving DecidableEq, Repr

/-- Request arm of the interceptor pipeline (`api.interceptors.request.use`):
read the stored token; when truthy, set `Authorization: Bearer <token>`;
always return the descriptor. -/
def requestInterceptor (st : Storage) (c : ReqConfig) : ReqConfig :=
  match st.token with
  | some t => if t = "" then c else { c with authorization := some ("Bearer " ++ t) }
  | none => c

/-- How the caller's promise ends after the response-error interceptor:
rejected with the original axios error, or rejected with the TypeError
the handler itself raised while logging. -/
inductive Rejection where
  | original (e : AxiosError) : Rejection
  | fault : Rejection
  deriving DecidableEq, Repr

/-- Everything the response-error interceptor produces: the session store
afterwards, the `window.location.href` assignments performed, the console
diagnostics, and the settled outcome handed to the caller. -/
structure HandlerOut where
  storage : Storage
  navigations : List String
  logs : List String
  outcome : Except Rejection Unit
  deriving Repr

/-- Render an optional message the way `console.error` prints it. -/
def showMsg : Option String → String
  | some s => s
  | none => "undefined"

/-- Response arm of the interceptor pipeline, error branch
(`api.interceptors.response.use`, second argument): 401 clears both
session keys and navigates to `/login`; every other status logs
`data.message` (which faults on a null body) ; no-response and
construction failures only log; every branch that completes returns
`Promise.reject(error)`. -/
def responseErrorInterceptor (st : Storage) (e : AxiosError) : HandlerOut :=
  match e.response with
  | some r =>
    if r.status = 401 then
      { storage := ⟨none, none⟩, navigations := ["/login"], logs := [],
        outcome := .error (.original e) }
    else
      match r.data.getMessage with
      | .ok m =>
        let tag :=
          if r.status = 403 then "Access forbidden:"
          else if r.status = 404 then "Resource not found:"
          else if r.status = 500 then "Server error:"
          else "API Error:"
        { storage := st, navigations := [], logs := [tag ++ " " ++ showMsg m],
          outcome := .error (.original e) }
      | .error _ =>
        { storage := st, navigations := [], logs := [],
          outcome := .error .fault }
  | none =>
    if e.hasRequest then
      { storage := st, navigations := [],
        logs := ["No response from server. Please check your connection."],
        outcome := .error (.original e) }
    else
      { storage := st, navigations := [], logs := ["Error: " ++ e.message],
        outcome := .error (.original e) }

/-- JavaScript `a || b` on an optional string: `null`/`undefined` and the
empty string are falsy. -/
def jsOrStr : Option String → String → String
  | some s, d => if s = "" then d else s
  | none, d => d

/-- `err.response?.data?.message` with optional chaining. -/
def serverMessage (e : AxiosError) : Option String :=
  match e.response with
  | some r => r.data.optMessage
  | none => none

/-- Server message falsy (absent or empty), i.e. `||` skips it. -/
def jsFalsyStr : Option String → Bool
  | none => true
  | some s => s = ""

/-- `err.response?.data?.message || err.message || 'An error occurred'`
(the `useApi` error-message derivation). -/
def errorMessageOf (e : AxiosError) : String :=
  jsOrStr (serverMessage e) (jsOrStr (some e.message) "An error occurred")

/-- Reactive record of the single-fetch machine (`useApi`). -/
structure ApiState (α : Type) where
  data : Option α
  loading : Bool
  error : Option String
  deriving DecidableEq, Repr

/-- How the awaited `apiFunction(...args)` settles. -/
inductive OpResult (α : Type) where
  | resolve (v : α) : OpResult α
  | reject (e : AxiosError) : OpResult α
  deriving DecidableEq, Repr

/-- `useApi`'s `execute`: set loading, clear error, await the operation;
on success store the result and return it; on failure derive the error
message and re-throw; `finally` clears loading.  Returns the in-flight
state, the final state, and the settled promise handed to the caller. -/
def execute {α : Type} (s : ApiState α) (r : OpResult α) :
    ApiState α × ApiState α × Except AxiosError α :=
  let s1 : ApiState α := { s with loading := true, error := none }
  match r with
  | .resolve v => (s1, { s1 with data := some v, loading := false }, .ok v)
  | .reject e =>
      (s1, { s1 with error := some (errorMessageOf e), loading := false }, .error e)

/-- JavaScript `a || b` on an optional number: `0` is falsy, so a present
`0` and an absent field both fall through to the default. -/
def jsOrInt : Option Int → Int → Int
  | some n, d => if n = 0 then d else n
  | none, d => d

/-- A response body accepted by the paginated machine: either a bare item
sequence, or an object with an optional `data` item sequence and optional
`totalPages` / `totalItems` / `total` numeric fields. -/
inductive PagResp (α : Type) where
  | arr (items : List α) : PagResp α
  | obj (dataField : Option (List α)) (totalPages totalItems total : Option Int) : PagResp α
  deriving DecidableEq, Repr

/-- `result.data || result`: the `data` field when present (arrays are
truthy even when empty), otherwise the response value itself. -/
def PagResp.dataOrSelf {α : Type} : PagResp α → PagResp α
  | .arr l => .arr l
  | .obj (some l) _ _ _ => .arr l
  | .obj none tp ti t => .obj none tp ti t

/-- `result.totalPages` (absent on a bare array). -/
def PagResp.totalPagesField {α : Type} : PagResp α → Option Int
  | .arr _ => none
  | .obj _ tp _ _ => tp

/-- `result.totalItems` (absent on a bare array). -/
def PagResp.totalItemsField {α : Type} : PagResp α → Option Int
  | .arr _ => none
  | .obj _ _ ti _ => ti

/-- `result.total` (absent on a bare array). -/
def PagResp.totalField {α : Type} : PagResp α → Option Int
  | .arr _ => none
  | .obj _ _ _ t => t

/-- How one awaited paginated call settles. -/
inductive Outcome (α : Type) where
  | success (resp : PagResp α) : Outcome α
  | failure (e : AxiosError) : Outcome α
  deriving DecidableEq, Repr

/-- Reactive record of the paginated machine (`usePaginatedApi`). -/
structure PagState (α : Type) where
  data : PagResp α
  loading : Bool
  error : Option String
  page : Int
  totalPages : Int
  totalItems : Int
  deriving DecidableEq, Repr

/-- `err.response?.data?.message || 'Failed to fetch data'` (the paginated
machine's error-message derivation). -/
def pagErrorMessage (e : AxiosError) : String :=
  jsOrStr (serverMessage e) "Failed to fetch data"

/-- The argument object `{page: pageNum, limit: pageSize}` passed to the
bound operation by one fetch. -/
structure FetchCall where
  page : Int
  limit : Int
  deriving DecidableEq, Repr

/-- `usePaginatedApi`'s `fetchData(pageNum)`: set loading, clear error,
invoke the operation with `{page: pageNum, limit: pageSize}`; on success
replace `data` with `result.data || result` and read `totalPages` and
`totalItems` with `|| 0` fallbacks; on failure set the error string and
swallow the failure (the `catch` does not re-throw, so the async function
resolves); `finally` clears loading.  Returns the final state, the issued
call, and the settled promise handed to a direct caller. -/
def fetchData {α : Type} (pageSize : Int) (s : PagState α) (pageNum : Int)
    (o : Outcome α) : PagState α × FetchCall × Except AxiosError Unit :=
  let s1 : PagState α := { s with loading := true, error := none }
  match o with
  | .success resp =>
      ({ s1 with
          data := resp.dataOrSelf,
          totalPages := jsOrInt resp.totalPagesField 0,
          totalItems := jsOrInt resp.totalItemsField (jsOrInt resp.totalField 0),
          loading := false },
        ⟨pageNum, pageSize⟩, .ok ())
  | .failure e =>
      ({ s1 with error := some (pagErrorMessage e), loading := false },
        ⟨pageNum, pageSize⟩, .ok ())

/-- An event applied to the paginated machine.  Each event that triggers a
fetch carries the outcome with which that fetch settles (the embedding
runs settlement synchronously, matching the cooperative single-threaded
model with one call in flight at a time). -/
inductive PagCmd (α : Type) where
  | next (o : Outcome α) : PagCmd α
  | prev (o : Outcome α) : PagCmd α
  | goto (n : Int) (o : Outcome α) : PagCmd α
  | refetch (o : Outcome α) : PagCmd α
  deriving DecidableEq, Repr

/-- Whether the event is an explicit `refetch` call. -/
def PagCmd.isRefetch {α : Type} : PagCmd α → Bool
  | .refetch _ => true
  | _ => false

/-- One step of the paginated machine.  `nextPage`/`prevPage`/`goToPage`
update `page` only inside their guards (`page < totalPages`, `page > 1`,
`1 ≤ n ≤ totalPages`); a changed `page` re-runs the effect, which calls
`fetchData(page)` once; setting `page` to its current value re-renders
with unchanged effect dependencies, so no fetch runs; `refetch` calls
`fetchData` directly at the current page.  Returns the new state and the
list of calls issued to the bound operation during the step. -/
def step {α : Type} (pageSize : Int) (s : PagState α) (c : PagCmd α) :
    PagState α × List FetchCall :=
  match c with
  | .next o =>
      if s.page < s.totalPages then
        let s1 : PagState α := { s with page := s.page + 1 }
        ((fetchData pageSize s1 s1.page o).1, [(fetchData pageSize s1 s1.page o).2.1])
      else (s, [])
  | .prev o =>
      if 1 < s.page then
        let s1 : PagState α := { s with page := s.page - 1 }
        ((fetchData pageSize s1 s1.page o).1, [(fetchData pageSize s1 s1.page o).2.1])
      else (s, [])
  | .goto n o =>
      if 1 ≤ n ∧ n ≤ s.totalPages then
        if n = s.page then (s, [])
        else
          let s1 : PagState α := { s with page := n }
          ((fetchData pageSize s1 n o).1, [(fetchData pageSize s1 n o).2.1])
      else (s, [])
  | .refetch o =>
      ((fetchData pageSize s s.page o).1, [(fetchData pageSize s s.page o).2.1])

/-- The state `usePaginatedApi` constructs before its mount effect runs:
empty data, not loading, no error, `page = initialPage`, zero totals. -/
def initState {α : Type} (initialPage : Int) : PagState α :=
  { data := .arr [], loading := false, error := none,
    page := initialPage, totalPages := 0, totalItems := 0 }

/-- Construction plus the mount effect: the effect runs once on mount and
calls `fetchData(page)` at the initial page. -/
def mount {α : Type} (pageSize initialPage : Int) (o : Outcome α) :
    PagState α × FetchCall :=
  ((fetchData pageSize (initState initialPage) initialPage o).1,
   (fetchData pageSize (initState initialPage) initialPage o).2.1)

/-- Run a sequence of events from a state. -/
def run {α : Type} (pageSize : Int) (s : PagState α) (cs : List (PagCmd α)) :
    PagState α :=
  cs.foldl (fun s c => (step pageSize s c).1) s

/-- A settlement is page-consistent at page `p` when, if it succeeds, the
total-page count the machine will store (`result.totalPages || 0`) is at
least `p`. -/
def goodOutcome {α : Type} (p : Int) : Outcome α → Bool
  | .success resp => decide (p ≤ jsOrInt resp.totalPagesField 0)
  | .failure _ => true

/-- An event is page-consistent when the fetch it triggers (if any)
settles page-consistently at the page it targets. -/
def goodCmd {α : Type} (s : PagState α) : PagCmd α → Bool
  | .next o => if s.page < s.totalPages then goodOutcome (s.page + 1) o else true
  | .prev o => if 1 < s.page then goodOutcome (s.page - 1) o else true
  | .goto n o =>
      if 1 ≤ n ∧ n ≤ s.totalPages ∧ n ≠ s.page then goodOutcome n o else true
  | .refetch o => goodOutcome s.page o

/-- Every event of the run is page-consistent at the state it is applied to. -/
def goodRun {α : Type} (pageSize : Int) : PagState α → List (PagCmd α) → Bool
  | _, [] => true
  | s, c :: cs => goodCmd s c && goodRun pageSize (step pageSize s c).1 cs

/-- The page-bounds invariant claimed for the paginated machine. -/
def PageInv {α : Type} (s : PagState α) : Prop :=
  1 ≤ s.page ∧ s.page ≤ max s.totalPages 1

instance {α : Type} (s : PagState α) : Decidable (PageInv s) := by
  unfold PageInv; infer_instance

/-- The auth login response body: optional `token`, the `user` field in
serialized form when present, and `extra` standing for all other fields
(so "returns the full body" is observable). -/
structure LoginResp where
  token : Option String
  user : Option String
  extra : String
  deriving DecidableEq, Repr

/-- `JSON.stringify(response.data.user)` as `setItem` stores it: an absent
`user` serializes to `undefined`, which `setItem` coerces to the string
`"undefined"`. -/
def serializeUser : Option String → String
  | some u => u
  | none => "undefined"

/-- `authService.login`: POST the credentials; when the response body
carries a truthy token, write both `token` and the serialized `user` to
the store; always return the full response body. -/
def login (st : Storage) (resp : LoginResp) : Storage × LoginResp :=
  match resp.token with
  | some t =>
      if t = "" then (st, resp)
      else ({ token := some t, user := some (serializeUser resp.user) }, resp)
  | none => (st, resp)

/-! Concrete example values used by witnesses and counterexamples. -/

/-- A populated session store. -/
def exStorage : Storage := ⟨some "tok", some "u1"⟩

/-- A 401 error with a message body. -/
def exErr401 : AxiosError :=
  { response := some ⟨401, .objv (some "Unauthorized")⟩, hasRequest := true,
    message := "Request failed with status code 401" }

/-- A 500 error whose body carries the message `boom`. -/
def exErrBoom : AxiosError :=
  { response := some ⟨500, .objv (some "boom")⟩, hasRequest := true,
    message := "boom" }

/-- A 403 error whose JSON body is literally `null`. -/
def exErr403null : AxiosError :=
  { response := some ⟨403, .nullv⟩, hasRequest := true,
    message := "Request failed with status code 403" }

/-- A paginated state resting at page 3 of 3. -/
def exPag : PagState Nat :=
  { data := .arr [], loading := false, error := none,
    page := 3, totalPages := 3, totalItems := 30 }

/-- A paginated state resting at page 1 of 3. -/
def exPag1 : PagState Nat :=
  { data := .arr [], loading := false, error := none,
    page := 1, totalPages := 3, totalItems := 30 }

/-- A successful page response reporting 3 total pages. -/
def exOk : Outcome Nat := .success (.obj (some [1, 2]) (some 3) (some 30) none)

/-! ## Helper lemmas -/

/-- `fetchData` never changes `page`. -/
theorem fetchData_page {α : Type} (ps : Int) (s : PagState α) (pn : Int)
    (o : Outcome α) : (fetchData ps s pn o).1.page = s.page := by
  cases o <;> rfl

/-- The call `fetchData` issues is `{page: pageNum, limit: pageSize}`. -/
theorem fetchData_call {α : Type} (ps : Int) (s : PagState α) (pn : Int)
    (o : Outcome α) : (fetchData ps s pn o).2.1 = ⟨pn, ps⟩ := by
  cases o <;> rfl

/-- On success, `totalPages` becomes `result.totalPages || 0`. -/
theorem fetchData_totalPages_success {α : Type} (ps : Int) (s : PagState α)
    (pn : Int) (r : PagResp α) :
    (fetchData ps s pn (.success r)).1.totalPages = jsOrInt r.totalPagesField 0 := rfl

/-- On failure, `totalPages` is unchanged. -/
theorem fetchData_totalPages_failure {α : Type} (ps : Int) (s : PagState α)
    (pn : Int) (e : AxiosError) :
    (fetchData ps s pn (.failure e)).1.totalPages = s.totalPages := rfl

/-! ## Claim theorems -/

/-- C1: for every response with status 401 handled by the response arm,
afterwards the session is empty (token and user both cleared), navigation
to `/login` is triggered exactly once, and the caller's promise still
rejects with the original failure. -/
theorem c1_unauthorized_clears_session (st : Storage) (e : AxiosError)
    (r : ErrResponse) (hr : e.response = some r) (hs : r.status = 401) :
    (responseErrorInterceptor st e).storage = ⟨none, none⟩ ∧
    (responseErrorInterceptor st e).navigations = ["/login"] ∧
    (responseErrorInterceptor st e).outcome =
      Except.error (Rejection.original e) := by
  simp [responseErrorInterceptor, hr, hs]

/-- Witness for C1 at a concrete 401 error against a populated store. -/
theorem c1_unauthorized_clears_session_witness :
    exErr401.response = some ⟨401, .objv (some "Unauthorized")⟩ ∧
    ((responseErrorInterceptor exStorage exErr401).storage = ⟨none, none⟩ ∧
     (responseErrorInterceptor exStorage exErr401).navigations = ["/login"] ∧
     (responseErrorInterceptor exStorage exErr401).outcome =
       Except.error (Rejection.original exErr401)) :=
  ⟨rfl, c1_unauthorized_clears_session exStorage exErr401
    ⟨401, .objv (some "Unauthorized")⟩ rfl rfl⟩

/-- C2: the request arm sets `Authorization: Bearer <token>` exactly when a
(truthy) stored token exists; with no stored token the descriptor is
returned unchanged; in both cases the descriptor is returned (the arm is a
total function, so it never fails). -/
theorem c2_request_arm (st : Storage) (c : ReqConfig) :
    (∀ t : String, st.token = some t → t ≠ "" →
      requestInterceptor st c = { c with authorization := some ("Bearer " ++ t) }) ∧
    (st.token = none → requestInterceptor st c = c) := by
  constructor
  · intro t ht hne
    simp [requestInterceptor, ht, hne]
  · intro h
    simp [requestInterceptor, h]

/-- Witness for C2: a stored token is attached, an absent one leaves the
descriptor untouched. -/
theorem c2_request_arm_witness :
    requestInterceptor ⟨some "tok", none⟩ ⟨"/api/profile", none⟩ =
      ⟨"/api/profile", some ("Bearer " ++ "tok")⟩ ∧
    requestInterceptor ⟨none, none⟩ ⟨"/api/profile", none⟩ =
      ⟨"/api/profile", none⟩ :=
  ⟨(c2_request_arm ⟨some "tok", none⟩ ⟨"/api/profile", none⟩).1 "tok" rfl
      (by decide),
   (c2_request_arm ⟨none, none⟩ ⟨"/api/profile", none⟩).2 rfl⟩

/-- C9: when the login response body carries a (truthy) token, the session
store afterwards holds exactly that token together with the serialized
user, and `login` returns the full response body. -/
theorem c9_login_writes_session (st : Storage) (resp : LoginResp) (t : String)
    (ht : resp.token = some t) (hne : t ≠ "") :
    (login st resp).1 = { token := some t, user := some (serializeUser resp.user) } ∧
    (login st resp).2 = resp := by
  simp [login, ht, hne]

/-- Witness for C9: the spec scenario `token "abc"`, user `u1`. -/
theorem c9_login_writes_session_witness :
    (login ⟨none, none⟩ ⟨some "abc", some "u1", "ok"⟩).1 =
      ⟨some "abc", some "u1"⟩ ∧
    (login ⟨none, none⟩ ⟨some "abc", some "u1", "ok"⟩).2 =
      ⟨some "abc", some "u1", "ok"⟩ :=
  c9_login_writes_session ⟨none, none⟩ ⟨some "abc", some "u1", "ok"⟩ "abc" rfl
    (by decide)

/-- C10: when the login response carries no token field, the session store
is left completely unchanged and the response body is still returned. -/
theorem c10_login_no_token_frame (st : Storage) (resp : LoginResp)
    (h : resp.token = none) : login st resp = (st, resp) := by
  simp [login, h]

/-- Witness for C10 at a populated store and a tokenless body. -/
theorem c10_login_no_token_frame_witness :
    login exStorage ⟨none, none, "invalid credentials"⟩ =
      (exStorage, ⟨none, none, "invalid credentials"⟩) :=
  c10_login_no_token_frame exStorage ⟨none, none, "invalid credentials"⟩ rfl

/-- C3: from a non-loading state, `execute` on a resolving operation runs
loading false→true→false and ends with `data = X`, no error, returning
`X`; on a rejecting operation it ends with `data` unchanged, loading
false, and `error` chosen in priority order: the server message when
present and non-empty, else the transport `error.message` when non-empty,
else the literal `An error occurred`. -/
theorem c3_single_fetch_execute {α : Type} (s : ApiState α) (x : α)
    (e : AxiosError) (hL : s.loading = false) :
    (execute s (.resolve x)).1.loading = true ∧
    (execute s (.resolve x)).2.1 = { data := some x, loading := false, error := none } ∧
    (execute s (.resolve x)).2.2 = Except.ok x ∧
    (execute s (.reject e)).1.loading = true ∧
    (execute s (.reject e)).2.1.data = s.data ∧
    (execute s (.reject e)).2.1.loading = false ∧
    (execute s (.reject e)).2.1.error = some (errorMessageOf e) ∧
    (∀ m : String, serverMessage e = some m → m ≠ "" → errorMessageOf e = m) ∧
    (jsFalsyStr (serverMessage e) = true → e.message ≠ "" →
      errorMessageOf e = e.message) ∧
    (jsFalsyStr (serverMessage e) = true → e.message = "" →
      errorMessageOf e = "An error occurred") := by
  refine ⟨rfl, rfl, rfl, rfl, rfl, rfl, rfl, ?_, ?_, ?_⟩
  · intro m hm hne
    simp [errorMessageOf, jsOrStr, hm, hne]
  · intro hf hne
    cases h : serverMessage e with
    | none => simp [errorMessageOf, jsOrStr, h, hne]
    | some m =>
        rw [h] at hf
        simp only [jsFalsyStr, decide_eq_true_eq] at hf
        simp [errorMessageOf, jsOrStr, h, hf, hne]
  · intro hf hme
    cases h : serverMessage e with
    | none => simp [errorMessageOf, jsOrStr, h, hme]
    | some m =>
        rw [h] at hf
        simp only [jsFalsyStr, decide_eq_true_eq] at hf
        simp [errorMessageOf, jsOrStr, h, hf, hme]

/-- Witness for C3 at a concrete state, value and error. -/
theorem c3_single_fetch_execute_witness :
    (⟨some 7, false, none⟩ : ApiState Nat).loading = false ∧
    ((execute (⟨some 7, false, none⟩ : ApiState Nat) (.resolve 3)).2.1 =
      { data := some 3, loading := false, error := none } ∧
     (execute (⟨some 7, false, none⟩ : ApiState Nat) (.reject exErrBoom)).2.1.data =
      (⟨some 7, false, none⟩ : ApiState Nat).data) :=
  ⟨rfl,
   (c3_single_fetch_execute (⟨some 7, false, none⟩ : ApiState Nat) 3 exErrBoom
      rfl).2.1,
   (c3_single_fetch_execute (⟨some 7, false, none⟩ : ApiState Nat) 3 exErrBoom
      rfl).2.2.2.2.1⟩

/-- C4 counterexample: the paginated machine's `fetchData` (its `refetch`
action) on a failing operation resolves normally (`Except.ok ()`) instead
of re-raising the failure, while still publishing the error string — so
the claim that both machines re-raise to their direct caller is false. -/
theorem c4_counterexample :
    (fetchData 10 (initState (α := Nat) 1) 1 (.failure exErrBoom)).2.2 =
      Except.ok () ∧
    (fetchData 10 (initState (α := Nat) 1) 1 (.failure exErrBoom)).2.2 ≠
      Except.error exErrBoom ∧
    (fetchData 10 (initState (α := Nat) 1) 1 (.failure exErrBoom)).1.error =
      some "boom" := by
  refine ⟨rfl, ?_, by decide⟩
  intro h
  exact Except.noConfusion h

/-- C4 amended: every failing operation is converted to a human-readable
`error` field by both machines; the single-fetch `execute` additionally
re-raises the original failure to its direct caller, but the paginated
`fetchData`/`refetch` swallows it (its promise resolves), so only reactive
consumers observe the failure there. -/
theorem c4_error_conversion_and_reraise (α : Type) :
    (∀ (s : ApiState α) (e : AxiosError),
      (execute s (.reject e)).2.2 = Except.error e ∧
      (execute s (.reject e)).2.1.error = some (errorMessageOf e)) ∧
    (∀ (ps : Int) (s : PagState α) (pn : Int) (e : AxiosError),
      (fetchData ps s pn (.failure e)).2.2 = Except.ok () ∧
      (fetchData ps s pn (.failure e)).1.error = some (pagErrorMessage e)) :=
  ⟨fun _ _ => ⟨rfl, rfl⟩, fun _ _ _ _ => ⟨rfl, rfl⟩⟩

/-- C6: `nextPage` is a no-op (state and calls) when `page ≥ totalPages`;
`prevPage` when `page ≤ 1`; `goToPage n` when `n < 1` or `n > totalPages`;
and a permitted page change `goToPage n` (with `n ≠ page`) issues exactly
one fetch invoking the bound operation with `{page: n, limit: pageSize}`
and moves `page` to `n`. -/
theorem c6_navigation_guards {α : Type} (ps : Int) (s : PagState α) (n : Int)
    (o1 o2 o3 o4 : Outcome α) :
    (s.totalPages ≤ s.page → step ps s (.next o1) = (s, [])) ∧
    (s.page ≤ 1 → step ps s (.prev o2) = (s, [])) ∧
    (n < 1 ∨ s.totalPages < n → step ps s (.goto n o3) = (s, [])) ∧
    (1 ≤ n → n ≤ s.totalPages → n ≠ s.page →
      (step ps s (.goto n o4)).2 = [⟨n, ps⟩] ∧
      (step ps s (.goto n o4)).1.page = n) := by
  refine ⟨?_, ?_, ?_, ?_⟩
  · intro h
    simp only [step]
    rw [if_neg (by omega)]
  · intro h
    simp only [step]
    rw [if_neg (by omega)]
  · intro h
    simp only [step]
    rw [if_neg (by rintro ⟨h1, h2⟩; rcases h with h | h <;> omega)]
  · intro h1 h2 h3
    simp only [step]
    rw [if_pos ⟨h1, h2⟩, if_neg h3]
    exact ⟨by rw [fetchData_call], by rw [fetchData_page]⟩

/-- Witness for C6: the spec scenarios `nextPage` at page 3 of 3,
`prevPage` at page 1, `goToPage 5` with 3 total pages, and `goToPage 2`
from page 1. -/
theorem c6_navigation_guards_witness :
    step 10 exPag (.next exOk) = (exPag, []) ∧
    step 10 exPag1 (.prev exOk) = (exPag1, []) ∧
    step 10 exPag1 (.goto 5 exOk) = (exPag1, []) ∧
    (step 10 exPag1 (.goto 2 exOk)).2 = [⟨2, 10⟩] :=
  ⟨(c6_navigation_guards 10 exPag 5 exOk exOk exOk exOk).1 (by decide),
   (c6_navigation_guards 10 exPag1 5 exOk exOk exOk exOk).2.1 (by decide),
   (c6_navigation_guards 10 exPag1 5 exOk exOk exOk exOk).2.2.1
     (Or.inr (by decide)),
   ((c6_navigation_guards 10 exPag1 2 exOk exOk exOk exOk).2.2.2 (by decide)
     (by decide) (by decide)).1⟩

/-- C7: in every step of the paginated machine, a fetch is issued exactly
when the event is an explicit `refetch` or the step changes `page`, and
then exactly one fetch is issued; every other event issues none. -/
theorem c7_fetch_trigger_discipline {α : Type} (ps : Int) (s : PagState α)
    (c : PagCmd α) :
    ((step ps s c).2).length =
      (if c.isRefetch = true ∨ (step ps s c).1.page ≠ s.page then 1 else 0) := by
  cases c with
  | next o =>
      simp only [step, PagCmd.isRefetch]
      by_cases h : s.page < s.totalPages
      · rw [if_pos h]
        simp only [List.length_cons, List.length_nil]
        rw [if_pos (Or.inr (by rw [fetchData_page]; simp))]
      · rw [if_neg h]
        simp only [List.length_nil]
        rw [if_neg (by rintro (h1 | h1) <;> simp_all)]
  | prev o =>
      simp only [step, PagCmd.isRefetch]
      by_cases h : 1 < s.page
      · rw [if_pos h]
        simp only [List.length_cons, List.length_nil]
        rw [if_pos (Or.inr (by rw [fetchData_page]; simp))]
      · rw [if_neg h]
        simp only [List.length_nil]
        rw [if_neg (by rintro (h1 | h1) <;> simp_all)]
  | goto n o =>
      simp only [step, PagCmd.isRefetch]
      by_cases hg : 1 ≤ n ∧ n ≤ s.totalPages
      · rw [if_pos hg]
        by_cases he : n = s.page
        · rw [if_pos he]
          simp only [List.length_nil]
          rw [if_neg (by rintro (h1 | h1) <;> simp_all)]
        · rw [if_neg he]
          simp only [List.length_cons, List.length_nil]
          rw [if_pos (Or.inr (by rw [fetchData_page]; exact he))]
      · rw [if_neg hg]
        simp only [List.length_nil]
        rw [if_neg (by rintro (h1 | h1) <;> simp_all)]
  | refetch o =>
      simp only [step, PagCmd.isRefetch]
      rw [if_pos (Or.inl trivial)]
      simp

/-- One page-consistent step preserves the page-bounds invariant. -/
theorem step_preserves_PageInv {α : Type} (ps : Int) (s : PagState α)
    (c : PagCmd α) (hInv : PageInv s) (hg : goodCmd s c = true) :
    PageInv ((step ps s c).1) := by
  obtain ⟨h1, h2⟩ := hInv
  cases c with
  | next o =>
      simp only [step, goodCmd] at hg ⊢
      by_cases h : s.page < s.totalPages
      · rw [if_pos h] at hg ⊢
        cases o with
        | success r =>
            simp only [goodOutcome, decide_eq_true_eq] at hg
            constructor
            · rw [fetchData_page]; simp; omega
            · rw [fetchData_page, fetchData_totalPages_success]
              simp only
              exact le_trans hg (le_max_left _ _)
        | failure e =>
            constructor
            · rw [fetchData_page]; simp; omega
            · rw [fetchData_page, fetchData_totalPages_failure]
              simp only
              exact le_trans (by omega : s.page + 1 ≤ s.totalPages)
                (le_max_left _ _)
      · rw [if_neg h]
        exact ⟨h1, h2⟩
  | prev o =>
      simp only [step, goodCmd] at hg ⊢
      by_cases h : 1 < s.page
      · rw [if_pos h] at hg ⊢
        cases o with
        | success r =>
            simp only [goodOutcome, decide_eq_true_eq] at hg
            constructor
            · rw [fetchData_page]; simp; omega
            · rw [fetchData_page, fetchData_totalPages_success]
              simp only
              exact le_trans hg (le_max_left _ _)
        | failure e =>
            constructor
            · rw [fetchData_page]; simp; omega
            · rw [fetchData_page, fetchData_totalPages_failure]
              simp only
              exact le_trans (by omega : s.page - 1 ≤ s.page) h2
      · rw [if_neg h]
        exact ⟨h1, h2⟩
  | goto n o =>
      simp only [step, goodCmd] at hg ⊢
      by_cases hgd : 1 ≤ n ∧ n ≤ s.totalPages
      · rw [if_pos hgd]
        by_cases he : n = s.page
        · rw [if_pos he]
          exact ⟨h1, h2⟩
        · rw [if_neg he]
          rw [if_pos ⟨hgd.1, hgd.2, he⟩] at hg
          cases o with
          | success r =>
              simp only [goodOutcome, decide_eq_true_eq] at hg
              constructor
              · rw [fetchData_page]; simp; omega
              · rw [fetchData_page, fetchData_totalPages_success]
                simp only
                exact le_trans hg (le_max_left _ _)
          | failure e =>
              constructor
              · rw [fetchData_page]; simp; omega
              · rw [fetchData_page, fetchData_totalPages_failure]
                simp only
                exact le_trans hgd.2 (le_max_left _ _)
      · rw [if_neg hgd]
        exact ⟨h1, h2⟩
  | refetch o =>
      simp only [step, goodCmd] at hg ⊢
      cases o with
      | success r =>
          simp only [goodOutcome, decide_eq_true_eq] at hg
          constructor
          · rw [fetchData_page]; exact h1
          · rw [fetchData_page, fetchData_totalPages_success]
            exact le_trans hg (le_max_left _ _)
      | failure e =>
          constructor
          · rw [fetchData_page]; exact h1
          · rw [fetchData_page, fetchData_totalPages_failure]
            exact h2

/-- A page-consistent run preserves the page-bounds invariant. -/
theorem run_preserves_PageInv {α : Type} (ps : Int) (cs : List (PagCmd α)) :
    ∀ s : PagState α, PageInv s → goodRun ps s cs = true →
      PageInv (run ps s cs) := by
  induction cs with
  | nil => exact fun s h _ => h
  | cons c cs ih =>
      intro s h hg
      simp only [goodRun, Bool.and_eq_true] at hg
      exact ih _ (step_preserves_PageInv ps s c h hg.1) hg.2

/-- C5 counterexample: constructed with initial page 5, the machine's
first completed fetch reports 3 total pages and leaves `page = 5`, outside
`[1, max(totalPages, 1)]` — so the invariant does not hold for every
initial page value. -/
theorem c5_counterexample :
    (mount (α := Nat) 10 5 (.success (.obj none (some 3) none none))).1.page = 5 ∧
    (mount (α := Nat) 10 5 (.success (.obj none (some 3) none none))).1.totalPages = 3 ∧
    ¬ PageInv (mount (α := Nat) 10 5 (.success (.obj none (some 3) none none))).1 := by
  refine ⟨rfl, rfl, by decide⟩

/-- C5 amended: when the machine is constructed with initial page 1 and
every completed fetch (the mount fetch included) reports a total-page
count at least the page it targeted, `page` stays in
`[1, max(totalPages, 1)]` in every reachable state. -/
theorem c5_amended_page_bounds {α : Type} (ps : Int) (o0 : Outcome α)
    (cs : List (PagCmd α)) (h0 : goodOutcome (α := α) 1 o0 = true)
    (hg : goodRun ps ((mount ps 1 o0).1) cs = true) :
    PageInv (run ps ((mount ps 1 o0).1) cs) := by
  apply run_preserves_PageInv ps cs _ _ hg
  have hp : ((mount ps 1 o0).1).page = 1 := by
    simp only [mount]
    rw [fetchData_page]
    rfl
  constructor
  · rw [hp]
  · rw [hp]
    exact le_max_right _ _

/-- Witness for C5 (amended): a concrete page-consistent run
mount → goToPage 2 → nextPage → refetch keeps the invariant. -/
theorem c5_amended_page_bounds_witness :
    goodOutcome (α := Nat) 1 exOk = true ∧
    goodRun 10 ((mount 10 1 exOk).1) [.goto 2 exOk, .next exOk, .refetch exOk] = true ∧
    PageInv (run 10 ((mount 10 1 exOk).1) [.goto 2 exOk, .next exOk, .refetch exOk]) :=
  ⟨by decide, by decide,
   c5_amended_page_bounds 10 exOk [.goto 2 exOk, .next exOk, .refetch exOk]
     (by decide) (by decide)⟩

/-- C8 counterexample: a 403 response whose JSON body is literally `null`
makes the handler's own `data.message` access fault, so the caller's
promise rejects with that TypeError instead of the original failure (the
session store is still unchanged). -/
theorem c8_counterexample :
    (responseErrorInterceptor exStorage exErr403null).storage = exStorage ∧
    (responseErrorInterceptor exStorage exErr403null).outcome =
      Except.error Rejection.fault ∧
    Rejection.fault ≠ Rejection.original exErr403null := by
  refine ⟨rfl, rfl, by decide⟩

/-- C8 amended: for every error response with status ≠ 401 whose body is
not JSON `null` (so the diagnostic `data.message` lookup does not fault) —
object bodies with or without a message, string and empty bodies included
— the session store is unchanged, no navigation occurs, no further
request is issued, and the caller's promise rejects with the original
failure (never resolving as a success). -/
theorem c8_amended_non401_frame (st : Storage) (e : AxiosError)
    (r : ErrResponse) (hr : e.response = some r) (hs : ¬ r.status = 401)
    (hd : r.data ≠ BodyVal.nullv) :
    (responseErrorInterceptor st e).storage = st ∧
    (responseErrorInterceptor st e).navigations = [] ∧
    (responseErrorInterceptor st e).outcome =
      Except.error (Rejection.original e) := by
  simp only [responseErrorInterceptor, hr]
  rw [if_neg hs]
  cases h2 : r.data with
  | nullv => exact absurd h2 hd
  | strv s2 => exact ⟨rfl, rfl, rfl⟩
  | objv m => exact ⟨rfl, rfl, rfl⟩

/-- Witness for C8 (amended) at a concrete 500 error with a message body. -/
theorem c8_amended_non401_frame_witness :
    (responseErrorInterceptor exStorage exErrBoom).storage = exStorage ∧
    (responseErrorInterceptor exStorage exErrBoom).navigations = [] ∧
    (responseErrorInterceptor exStorage exErrBoom).outcome =
      Except.error (Rejection.original exErrBoom) :=
  c8_amended_non401_frame exStorage exErrBoom ⟨500, .objv (some "boom")⟩ rfl
    (by decide) (by decide)

end Tatva
